import Mathlib

/-!
Verification development for the conversion-orchestration core of the
WinApp-VideoPlayer-Converter repository.

The definitions below are a shallow embedding of the Python source:

* `VideoConverter` — the constructor parameters of
  `video_converter/core/converter.py::VideoConverter.__init__`.
* `buildFfmpegCommand` — `VideoConverter._build_ffmpeg_command`.
* `EncoderDetector`, `detect_available_encoders`, `get_best_encoder`,
  `is_hardware_accelerated` — `video_converter/core/encoder_detector.py`.
* `SequenceManager`, `get_next`, `get_current` —
  `video_converter/core/sequence_manager.py`.
* `convertModel` — the control flow of `VideoConverter.convert`.
* `convert_batch` — the loop of `VideoConverter.convert_batch`.

External effects (subprocess results, the filesystem, the stderr stream of
the transcoder process) are supplied as explicit environment records, so
every definition is executable on concrete inputs.
-/

/-- The constructor parameters of `VideoConverter.__init__`
(converter.py lines 18-57), with the source's default values.
Python `int` fields are `Int`; the mutable `_stop_event`, `_last_error`
and the detector instance are modelled in the session environment. -/
structure VideoConverter where
  encoder : String := "auto"
  width : Int := 1280
  height : Int := 720
  bitrate : String := "1000k"
  threads : Int := 1
  timeout : Int := 300
  preset : String := "medium"
  use_crf : Bool := false
  crf : Int := 23
deriving DecidableEq

/-- The converter built with every default parameter. -/
def defaultVideoConverter : VideoConverter := {}

/-- Quality flags of `_build_ffmpeg_command`: every encoder branch emits
`["-crf", str(crf)]` when `use_crf` and `["-b:v", bitrate]` otherwise
(converter.py lines 101-152). -/
def qualityFlags (c : VideoConverter) : List String :=
  if c.use_crf then ["-crf", toString c.crf] else ["-b:v", c.bitrate]

/-- Hardware-initialization flags emitted before `-i`
(converter.py lines 85-93). -/
def hwInitFlags (encoder : String) : List String :=
  if encoder = "h264_nvenc" ∨ encoder = "hevc_nvenc" then
    ["-hwaccel", "cuda", "-hwaccel_output_format", "cuda"]
  else if encoder = "h264_qsv" ∨ encoder = "hevc_qsv" then
    ["-init_hw_device", "qsv=hw", "-filter_hw_device", "hw",
     "-hwaccel", "qsv", "-hwaccel_output_format", "qsv"]
  else []

/-- Per-encoder arguments of `_build_ffmpeg_command`
(converter.py lines 97-153): codec, preset, quality flags and the
vendor-appropriate scale filter, branch by branch as in the source. -/
def encoderArgs (c : VideoConverter) (encoder : String) : List String :=
  if encoder = "h264_nvenc" then
    ["-c:v", "h264_nvenc", "-preset", c.preset] ++ qualityFlags c ++
      ["-vf", "scale_cuda=" ++ toString c.width ++ ":" ++ toString c.height]
  else if encoder = "hevc_nvenc" then
    ["-c:v", "hevc_nvenc", "-preset", c.preset] ++ qualityFlags c ++
      ["-vf", "scale_cuda=" ++ toString c.width ++ ":" ++ toString c.height]
  else if encoder = "h264_qsv" then
    ["-c:v", "h264_qsv", "-preset", c.preset] ++ qualityFlags c ++
      ["-vf", "scale_qsv=w=" ++ toString c.width ++ ":h=" ++ toString c.height]
  else if encoder = "hevc_qsv" then
    ["-c:v", "hevc_qsv", "-preset", c.preset] ++ qualityFlags c ++
      ["-vf", "scale_qsv=w=" ++ toString c.width ++ ":h=" ++ toString c.height]
  else if encoder = "h264_amf" then
    ["-c:v", "h264_amf", "-preset", c.preset] ++ qualityFlags c ++
      ["-vf", "scale=" ++ toString c.width ++ ":" ++ toString c.height]
  else if encoder = "hevc_amf" then
    ["-c:v", "hevc_amf", "-preset", c.preset] ++ qualityFlags c ++
      ["-vf", "scale=" ++ toString c.width ++ ":" ++ toString c.height]
  else
    ["-c:v", encoder, "-preset", c.preset] ++ qualityFlags c ++
      ["-vf", "scale=" ++ toString c.width ++ ":" ++ toString c.height]

/-- `VideoConverter._build_ffmpeg_command` (converter.py lines 66-161).
`ffmpegPath` stands for the result of `find_ffmpeg()`, resolved from the
host filesystem before the build. -/
def buildFfmpegCommand (ffmpegPath : String) (c : VideoConverter)
    (inputPath outputPath encoder : String) : List String :=
  [ffmpegPath, "-threads", toString c.threads, "-y"] ++
    hwInitFlags encoder ++ ["-i", inputPath] ++ encoderArgs c encoder ++
    ["-c:a", "aac"] ++ [outputPath]

/-! ## Encoder capability probe (encoder_detector.py) -/

/-- Boolean prefix test on character lists (helper for the Python
substring operator `encoder_name in result.stdout`). -/
def isPrefixOfChars : List Char → List Char → Bool
  | [], _ => true
  | _ :: _, [] => false
  | a :: as, b :: bs => a == b && isPrefixOfChars as bs

/-- Boolean substring test on character lists. -/
def containsSub : List Char → List Char → Bool
  | [], pat => isPrefixOfChars pat []
  | h :: t, pat => isPrefixOfChars pat (h :: t) || containsSub t pat

/-- The Python substring operator `pat in hay` used by
`EncoderDetector._check_encoder` (encoder_detector.py line 126). -/
def strContains (hay pat : String) : Bool :=
  containsSub hay.data pat.data

/-- The probe's external environment: the outcome of `check_ffmpeg()`
(`ffmpeg -version` exit status), the outcome and stdout of
`ffmpeg -hide_banner -encoders`, and the verdict of
`check_nvidia_driver()`. -/
structure EncoderDetector where
  ffmpegOk : Bool
  encodersQueryOk : Bool
  encodersStdout : String
  nvidiaOk : Bool
deriving DecidableEq

/-- `EncoderDetector._check_encoder` (encoder_detector.py lines 102-130):
requires `check_ffmpeg()`, a successful `-encoders` query, and the
encoder name as a substring of its stdout. -/
def check_encoder (d : EncoderDetector) (name : String) : Bool :=
  d.ffmpegOk && d.encodersQueryOk && strContains d.encodersStdout name

/-- `EncoderDetector._check_nvenc` (lines 132-141): the compiled-in check
plus the NVIDIA driver-version gate. -/
def check_nvenc (d : EncoderDetector) : Bool :=
  check_encoder d "h264_nvenc" && d.nvidiaOk

/-- `EncoderDetector._check_hevc_nvenc` (lines 163-170). -/
def check_hevc_nvenc (d : EncoderDetector) : Bool :=
  check_encoder d "hevc_nvenc" && d.nvidiaOk

/-- `EncoderDetector._check_qsv` (lines 147-149). -/
def check_qsv (d : EncoderDetector) : Bool := check_encoder d "h264_qsv"

/-- `EncoderDetector._check_amf` (lines 151-153). -/
def check_amf (d : EncoderDetector) : Bool := check_encoder d "h264_amf"

/-- `EncoderDetector._check_hevc_amf` (lines 155-157). -/
def check_hevc_amf (d : EncoderDetector) : Bool := check_encoder d "hevc_amf"

/-- `EncoderDetector._check_hevc_qsv` (lines 159-161). -/
def check_hevc_qsv (d : EncoderDetector) : Bool := check_encoder d "hevc_qsv"

/-- The appends of `detect_available_encoders` before the fallback
(encoder_detector.py lines 182-209), in the source's order:
HEVC hardware (nvenc, amf, qsv), H.264 hardware (nvenc, qsv, amf),
then the software encoders libx265 and libx264. -/
def rawDetectedEncoders (d : EncoderDetector) : List String :=
  (if check_hevc_nvenc d then ["hevc_nvenc"] else []) ++
  (if check_hevc_amf d then ["hevc_amf"] else []) ++
  (if check_hevc_qsv d then ["hevc_qsv"] else []) ++
  (if check_nvenc d then ["h264_nvenc"] else []) ++
  (if check_qsv d then ["h264_qsv"] else []) ++
  (if check_amf d then ["h264_amf"] else []) ++
  (if check_encoder d "libx265" then ["libx265"] else []) ++
  (if check_encoder d "libx264" then ["libx264"] else [])

/-- `EncoderDetector.detect_available_encoders`
(encoder_detector.py lines 172-216): the probe sequence with the
mandatory `libx264` fallback when nothing was detected. The instance
cache (`_available_encoders`) only memoizes this value, so it is
modelled as a pure function of the probe environment. -/
def detect_available_encoders (d : EncoderDetector) : List String :=
  if rawDetectedEncoders d = [] then ["libx264"] else rawDetectedEncoders d

/-- `EncoderDetector.get_best_encoder` (lines 218-226):
`encoders[0] if encoders else "libx264"`. -/
def get_best_encoder (d : EncoderDetector) : String :=
  (detect_available_encoders d).headD "libx264"

/-- `EncoderDetector.is_hardware_accelerated` (lines 228-239):
membership in the literal list `["h264_nvenc", "h264_qsv", "h264_amf"]`. -/
def is_hardware_accelerated (encoder : String) : Bool :=
  encoder == "h264_nvenc" || encoder == "h264_qsv" || encoder == "h264_amf"

/-- The eight candidate names in the order the code appends them. -/
def codePriorityOrder : List String :=
  ["hevc_nvenc", "hevc_amf", "hevc_qsv",
   "h264_nvenc", "h264_qsv", "h264_amf", "libx265", "libx264"]

/-- Modelled from the spec: the priority order its sections 4.2.2 and
4.2.4 describe — HEVC hardware then H.264 hardware, each group in vendor
order NVIDIA, Intel (integrated graphics), AMD — then the software
encoders libx265 and libx264. Stated for comparison with the order the
code actually produces. -/
def specPriorityOrder : List String :=
  ["hevc_nvenc", "hevc_qsv", "hevc_amf",
   "h264_nvenc", "h264_qsv", "h264_amf", "libx265", "libx264"]

/-- The availability check the code applies to each candidate name. -/
def checkByName (d : EncoderDetector) (name : String) : Bool :=
  if name = "hevc_nvenc" then check_hevc_nvenc d
  else if name = "hevc_amf" then check_hevc_amf d
  else if name = "hevc_qsv" then check_hevc_qsv d
  else if name = "h264_nvenc" then check_nvenc d
  else if name = "h264_qsv" then check_qsv d
  else if name = "h264_amf" then check_amf d
  else check_encoder d name

/-- A probe environment in which every encoder is compiled in and the
NVIDIA driver check passes. -/
def dAll : EncoderDetector :=
  { ffmpegOk := true
    encodersQueryOk := true
    encodersStdout := "hevc_nvenc hevc_amf hevc_qsv h264_nvenc h264_qsv h264_amf libx265 libx264"
    nvidiaOk := true }

/-- A probe environment in which the transcoder binary check itself
fails, so every individual probe short-circuits to unavailable. -/
def dNone : EncoderDetector :=
  { ffmpegOk := false
    encodersQueryOk := false
    encodersStdout := ""
    nvidiaOk := false }

/-! ## Sequence allocator (sequence_manager.py) -/

/-- The in-process state of `SequenceManager`: the `current_sequence`
integer. The durable store is written best-effort on every advance and
does not influence in-process allocation, so it is not part of the
state needed for the allocation claims. -/
structure SequenceManager where
  current_sequence : Int
deriving DecidableEq

/-- `SequenceManager.get_next` (sequence_manager.py lines 45-56): under
the lock, capture the current value, advance by one, persist, return
the captured value. Modelled as explicit state passing; the lock
serializes calls, so sequential composition is the faithful model. -/
def get_next (m : SequenceManager) : Int × SequenceManager :=
  (m.current_sequence, ⟨m.current_sequence + 1⟩)

/-- `SequenceManager.get_current` (lines 69-77): the current value,
without advancing. -/
def get_current (m : SequenceManager) : Int :=
  m.current_sequence

/-- `get_next` iterated N times: the list of returned values and the
final allocator state. -/
def runAllocN : SequenceManager → Nat → List Int × SequenceManager
  | m, 0 => ([], m)
  | m, n + 1 =>
    let (v, m1) := get_next m
    let (vs, mf) := runAllocN m1 n
    (v :: vs, mf)

/-! ## Conversion session (VideoConverter.convert) -/

/-- The probe result of `get_video_info` (converter.py lines 225-269):
duration, width and height, with zero defaults when probing fails.
The float duration is modelled as a rational. -/
structure VideoInfo where
  duration : Rat
  width : Int
  height : Int
deriving DecidableEq

/-- A progress event forwarded to the caller's sinks: completion
percentage (absent when the source duration is unknown), elapsed media
time and the raw diagnostic line. -/
structure ProgressEvent where
  percent : Option Rat
  time : Rat
  raw : String
deriving DecidableEq

/-- The synthetic event the short-circuit copy path builds
(converter.py lines 319-324): `percent = 100.0`,
`time = float(duration) if duration else 0.0`, empty raw line. -/
def syntheticCopyEvent (info : VideoInfo) : ProgressEvent :=
  { percent := some 100
    time := if info.duration ≠ 0 then info.duration else 0
    raw := "" }

/-- Behaviour of the external transcoder process for one session:
whether `subprocess.Popen` itself succeeds (the binary exists), the
stderr lines the process emits, its exit code, the wall-clock second
(from session start) at which it exits, and whether it has written an
output file at the resolved path by the time the session inspects it. -/
structure ProcBehavior where
  spawnOk : Bool
  lines : List String
  exitCode : Int
  exitTime : Nat
  wroteOutput : Bool

/-- Everything outside the converter that `VideoConverter.convert`
observes: the stop flag at entry (line 288), input existence (line 292),
the `get_video_info` probe (lines 306-309), the result of
`shutil.copy2` on the short-circuit path (lines 314-332, including
whether a failed copy leaves a partial file behind), the process
behaviour, the loop iteration at which the stop flag is first observed
set (line 359), the loop iteration at which forwarding a progress line
raises an unexpected exception (lines 372-382), the message of any such
exception, and the probe state backing `_get_encoder`. -/
structure SessionEnv where
  stopAtStart : Bool
  inputExists : Bool
  info : VideoInfo
  copyOk : Bool
  copyLeavesPartial : Bool
  proc : ProcBehavior
  stopDuringRead : Option Nat
  excDuringLoop : Option Nat
  excMsg : String
  ffmpegPath : String
  detect : EncoderDetector

/-- Terminal outcomes of one `convert` call. `succeeded` and `failed`
are the `True`/`False` returns after a zero/non-zero exit;
`skippedIdentical` is the `True` return with the
`SKIPPED_SAME_RESOLUTION` marker in `_last_error`; `copyFailed` is the
`False` return of the copy path's exception handler; `cancelled` is the
`False` return on the stop flag; `inputMissing` is the
`FileNotFoundError` raise; `timedOut` is the `TimeoutError` raise of
the `TimeoutExpired` handler; `raisedError` is the re-raise of the
generic exception handler. -/
inductive Outcome
  | succeeded
  | skippedIdentical
  | copyFailed
  | failed
  | cancelled
  | timedOut
  | raisedError
  | inputMissing
deriving DecidableEq

/-- How the stderr read loop ends, with the progress events forwarded
up to that point. -/
inductive LoopExit
  | cancelledExit (events : List ProgressEvent)
  | excExit (events : List ProgressEvent)
  | finished (events : List ProgressEvent)
deriving DecidableEq

/-- `stop_event.is_set()` at loop iteration `i`, given the iteration at
which the flag is first observed set (the flag stays set once set). -/
def stopObserved (stopAt : Option Nat) (i : Nat) : Bool :=
  match stopAt with
  | none => false
  | some k => decide (k ≤ i)

/-- The stderr read loop of `convert` (converter.py lines 358-382):
each iteration first polls the stop flag; then reads a line; an empty
read with the process exited breaks the loop. A read line is parsed by
`_parse_progress` (abstracted as the `parse` argument, since no claim
depends on its internals) and a parsed event is forwarded before the
next read. `excAt` marks the iteration whose forwarding raises. -/
def readLoop (parse : String → Option ProgressEvent)
    (stopAt excAt : Option Nat) : Nat → List String → LoopExit
  | i, [] =>
    if stopObserved stopAt i then .cancelledExit [] else .finished []
  | i, l :: rest =>
    if stopObserved stopAt i then .cancelledExit []
    else if excAt = some i then .excExit []
    else
      let evs := match parse l with
        | some e => [e]
        | none => []
      match readLoop parse stopAt excAt (i + 1) rest with
      | .cancelledExit es => .cancelledExit (evs ++ es)
      | .excExit es => .excExit (evs ++ es)
      | .finished es => .finished (evs ++ es)

/-- The observable result of one `convert` call. `outputExists` is
whether a file remains at the resolved output path when the call
returns (files written by this session only); `transcoderInvoked` is
whether the session reached `subprocess.Popen`; `didCopy` is whether a
byte-level copy of the source completed; `killedProcess` records
`process.kill()`; `finishTime` is the wall-clock second at which the
session finished, on the paths that wait for the process to exit
(zero on the paths that do not reach process exit). -/
structure SessionResult where
  outcome : Outcome
  outputExists : Bool
  transcoderInvoked : Bool
  didCopy : Bool
  events : List ProgressEvent
  killedProcess : Bool
  finishTime : Nat
  command : List String
deriving DecidableEq

/-- The short-circuit condition of converter.py line 312:
`src_width == self.width and src_height == self.height and
self.width > 0 and self.height > 0`. -/
def copyCondition (c : VideoConverter) (info : VideoInfo) : Bool :=
  info.width == c.width && info.height == c.height &&
    decide (0 < c.width) && decide (0 < c.height)

/-- `VideoConverter._get_encoder` (converter.py lines 60-64). -/
def getEncoder (c : VideoConverter) (d : EncoderDetector) : String :=
  if c.encoder = "auto" then get_best_encoder d else c.encoder

/-- `VideoConverter.convert` (converter.py lines 271-410) as a function
of the converter parameters and the session environment. Timing note:
the read loop observes stderr EOF exactly when the process exits, so
the subsequent `communicate(timeout=...)` begins only after
`process.poll()` is non-None; with the process already exited it
returns at once and its `TimeoutExpired` cannot fire, which is why no
path below produces `Outcome.timedOut` or consults `c.timeout`. -/
def convertModel (c : VideoConverter)
    (parse : String → Option ProgressEvent) (env : SessionEnv)
    (inputPath outputPath : String) : SessionResult :=
  if env.stopAtStart then
    { outcome := .cancelled, outputExists := false,
      transcoderInvoked := false, didCopy := false, events := [],
      killedProcess := false, finishTime := 0, command := [] }
  else if !env.inputExists then
    { outcome := .inputMissing, outputExists := false,
      transcoderInvoked := false, didCopy := false, events := [],
      killedProcess := false, finishTime := 0, command := [] }
  else if copyCondition c env.info then
    if env.copyOk then
      { outcome := .skippedIdentical, outputExists := true,
        transcoderInvoked := false, didCopy := true,
        events := [syntheticCopyEvent env.info],
        killedProcess := false, finishTime := 0, command := [] }
    else
      -- the handler at lines 330-332 returns False without the
      -- `output_path.unlink()` the transcode-path handlers perform
      { outcome := .copyFailed, outputExists := env.copyLeavesPartial,
        transcoderInvoked := false, didCopy := false, events := [],
        killedProcess := false, finishTime := 0, command := [] }
  else
    let cmd := buildFfmpegCommand env.ffmpegPath c inputPath outputPath
      (getEncoder c env.detect)
    if !env.proc.spawnOk then
      -- Popen raises; the generic handler (lines 406-410) deletes any
      -- output file and re-raises
      { outcome := .raisedError, outputExists := false,
        transcoderInvoked := true, didCopy := false, events := [],
        killedProcess := false, finishTime := 0, command := cmd }
    else
      match readLoop parse env.stopDuringRead env.excDuringLoop 0
          env.proc.lines with
      | .cancelledExit evs =>
        -- lines 359-364: kill, delete output, return False
        { outcome := .cancelled, outputExists := false,
          transcoderInvoked := true, didCopy := false, events := evs,
          killedProcess := true, finishTime := 0, command := cmd }
      | .excExit evs =>
        -- lines 406-410: delete output, re-raise (no kill)
        { outcome := .raisedError, outputExists := false,
          transcoderInvoked := true, didCopy := false, events := evs,
          killedProcess := false, finishTime := 0, command := cmd }
      | .finished evs =>
        if env.proc.exitCode = 0 then
          { outcome := .succeeded, outputExists := env.proc.wroteOutput,
            transcoderInvoked := true, didCopy := false, events := evs,
            killedProcess := false, finishTime := env.proc.exitTime,
            command := cmd }
        else
          -- lines 389-397: record stderr, delete output, return False
          { outcome := .failed, outputExists := false,
            transcoderInvoked := true, didCopy := false, events := evs,
            killedProcess := false, finishTime := env.proc.exitTime,
            command := cmd }

/-! ## Batch orchestration (VideoConverter.convert_batch) -/

/-- What a `self.convert(...)` call inside the batch loop produces for
its caller: a boolean return, or an exception (`FileNotFoundError`,
`TimeoutError`, or the re-raised unexpected exception) with its
`str(e)` text. -/
inductive ConvertOutput
  | ok (b : Bool)
  | exn (msg : String)
deriving DecidableEq

/-- Maps a session result to what the batch loop's `try` block sees.
The exception texts follow converter.py lines 293 and 405; the
re-raised generic exception carries the environment's message (used
both for a failed `Popen` and for an exception raised while forwarding
progress — at most one of the two occurs in any single run). -/
def toConvertOutput (inputName : String) (env : SessionEnv)
    (r : SessionResult) : ConvertOutput :=
  match r.outcome with
  | .succeeded => .ok true
  | .skippedIdentical => .ok true
  | .copyFailed => .ok false
  | .failed => .ok false
  | .cancelled => .ok false
  | .inputMissing => .exn ("輸入檔案不存在: " ++ inputName)
  | .timedOut => .exn ("轉換超時: " ++ inputName)
  | .raisedError => .exn env.excMsg

/-- An entry of `failed_files`: the plain-path append of
converter.py line 491, or the `(file, reason)` append of line 495. -/
inductive FailEntry
  | bare (file : String)
  | withReason (file : String) (reason : String)
deriving DecidableEq

/-- One input file of a batch together with the session environment its
conversion will observe. -/
structure FileJob where
  name : String
  env : SessionEnv

/-- The dictionary `convert_batch` returns (converter.py lines
498-503), plus `attempted`: the number of files for which the loop
reached the `self.convert(...)` call — instrumentation for stating
which files a batch run starts a session for. -/
structure BatchResult where
  total : Nat
  success : Nat
  failed : Nat
  failed_files : List FailEntry
  attempted : Nat
deriving DecidableEq

/-- Zero-pad a digit string to `width` characters (Python `zfill`). -/
def zfill (width : Nat) (s : String) : String :=
  if s.length < width then
    String.mk (List.replicate (width - s.length) '0') ++ s
  else s

/-- The Python format `f"{seq:04d}"`: minimum width 4, zero padding
after the sign. -/
def formatSeq04 (n : Int) : String :=
  if n < 0 then "-" ++ zfill 3 (toString (-n)) else zfill 4 (toString n)

/-- The output filename of converter.py lines 474-477:
`av-{height}p-{seq:04d}.mp4` when the configured height is positive,
else `av-{seq:04d}.mp4`. -/
def batchOutputName (c : VideoConverter) (seq : Int) : String :=
  if 0 < c.height then
    "av-" ++ toString c.height ++ "p-" ++ formatSeq04 seq ++ ".mp4"
  else
    "av-" ++ formatSeq04 seq ++ ".mp4"

/-- The per-file loop of `convert_batch` (converter.py lines 457-496),
carrying the loop index (for the stop check at line 458), the sequence
allocator state and the remaining files. `stopAt` is the loop index at
which the externally-set stop flag is first observed. `total` is filled
by the wrapper; `delete_original` only removes source files and logs on
failure, affecting no field of the result, so it is not a parameter. -/
def batchLoop (c : VideoConverter) (parse : String → Option ProgressEvent)
    (folder : String) (stopAt : Option Nat)
    : Nat → SequenceManager → List FileJob → BatchResult × SequenceManager
  | _, m, [] =>
    ({ total := 0, success := 0, failed := 0, failed_files := [],
       attempted := 0 }, m)
  | idx, m, j :: rest =>
    if stopObserved stopAt idx then
      ({ total := 0, success := 0, failed := 0, failed_files := [],
         attempted := 0 }, m)
    else
      let seq := (get_next m).1
      let m1 := (get_next m).2
      let outPath := folder ++ "/" ++ batchOutputName c seq
      let r := convertModel c parse j.env j.name outPath
      let res := (batchLoop c parse folder stopAt (idx + 1) m1 rest).1
      let mf := (batchLoop c parse folder stopAt (idx + 1) m1 rest).2
      match toConvertOutput j.name j.env r with
      | .ok true =>
        ({ res with
            success := res.success + 1
            attempted := res.attempted + 1 }, mf)
      | .ok false =>
        ({ res with
            failed := res.failed + 1
            failed_files := FailEntry.bare j.name :: res.failed_files
            attempted := res.attempted + 1 }, mf)
      | .exn msg =>
        ({ res with
            failed := res.failed + 1
            failed_files := FailEntry.withReason j.name msg :: res.failed_files
            attempted := res.attempted + 1 }, mf)

/-- `VideoConverter.convert_batch` (converter.py lines 424-503):
resets the stop flag (modelled by `stopAt` counting observations from
this fresh start), then runs the loop; `total` is the length of the
input list regardless of how far the loop got. -/
def convert_batch (c : VideoConverter) (parse : String → Option ProgressEvent)
    (folder : String) (jobs : List FileJob) (stopAt : Option Nat)
    (m : SequenceManager) : BatchResult × SequenceManager :=
  ({ (batchLoop c parse folder stopAt 0 m jobs).1 with total := jobs.length },
    (batchLoop c parse folder stopAt 0 m jobs).2)

/-- A `_parse_progress` stand-in that parses no line (no claim depends
on the parser's internals). -/
def parseNone : String → Option ProgressEvent := fun _ => none

/-! ## Helper lemmas -/

theorem headD_mem {α : Type} (l : List α) (x : α) (h : l ≠ []) :
    l.headD x ∈ l := by
  cases l with
  | nil => exact absurd rfl h
  | cons a t => simp [List.headD]

theorem ite_cons_append (b : Prop) [Decidable b] (a : String)
    (l : List String) :
    (if b then a :: l else l) = (if b then [a] else []) ++ l := by
  split <;> simp

/-! ## C5 — sequence allocator -/

/-- C5: calling the allocator's `get_next` N times sequentially returns
the contiguous ascending run v, v+1, ..., v+N-1 where v is the
`get_current` value immediately before the first call, and afterwards
`get_current` returns v+N. Calls are serialized by the allocator's
lock, so sequential composition models any number of callers. -/
theorem c5_sequence_allocator (m : SequenceManager) (N : Nat) :
    (runAllocN m N).1
      = (List.range N).map (fun i : Nat => get_current m + (i : Int))
    ∧ get_current (runAllocN m N).2 = get_current m + (N : Int) := by
  induction N generalizing m with
  | zero => simp [runAllocN]
  | succ n ih =>
    obtain ⟨h1, h2⟩ := ih ⟨m.current_sequence + 1⟩
    constructor
    · show m.current_sequence :: (runAllocN ⟨m.current_sequence + 1⟩ n).1 = _
      rw [h1, List.range_succ_eq_map, List.map_cons, List.map_map]
      refine congrArg₂ _ ?_ ?_
      · show m.current_sequence = get_current m + ((0 : Nat) : Int)
        simp [get_current]
      · refine List.map_congr_left ?_
        intro a _
        show get_current ⟨m.current_sequence + 1⟩ + (a : Int)
          = get_current m + ((a.succ : Nat) : Int)
        simp [get_current]
        ring
    · show get_current (runAllocN ⟨m.current_sequence + 1⟩ n).2 = _
      rw [h2]
      show get_current ⟨m.current_sequence + 1⟩ + (n : Int)
        = get_current m + ((n + 1 : Nat) : Int)
      simp [get_current]
      ring

/-! ## C6 — the probe never returns an empty list -/

/-- C6: for every probe state, `detect_available_encoders` returns a
non-empty list; when the transcoder binary check fails (or the
`-encoders` query fails, or no individual probe succeeds) the list is
exactly the baseline `["libx264"]`; and `get_best_encoder` always
returns an element of the detected list. -/
theorem c6_nonempty_fallback (d : EncoderDetector) :
    detect_available_encoders d ≠ []
    ∧ (d.ffmpegOk = false → detect_available_encoders d = ["libx264"])
    ∧ (d.encodersQueryOk = false → detect_available_encoders d = ["libx264"])
    ∧ (rawDetectedEncoders d = [] → detect_available_encoders d = ["libx264"])
    ∧ get_best_encoder d ∈ detect_available_encoders d := by
  have hne : detect_available_encoders d ≠ [] := by
    unfold detect_available_encoders
    split
    · simp
    · assumption
  refine ⟨hne, ?_, ?_, ?_, headD_mem _ _ hne⟩
  · intro h
    have hraw : rawDetectedEncoders d = [] := by
      simp [rawDetectedEncoders, check_hevc_nvenc, check_hevc_amf,
        check_hevc_qsv, check_nvenc, check_qsv, check_amf, check_encoder, h]
    simp [detect_available_encoders, hraw]
  · intro h
    have hraw : rawDetectedEncoders d = [] := by
      simp [rawDetectedEncoders, check_hevc_nvenc, check_hevc_amf,
        check_hevc_qsv, check_nvenc, check_qsv, check_amf, check_encoder, h]
    simp [detect_available_encoders, hraw]
  · intro h
    simp [detect_available_encoders, h]

/-- C6 witness: with the binary check failed and every probe
unavailable, the returned list is exactly the baseline software
encoder. -/
theorem c6_witness : detect_available_encoders dNone = ["libx264"] :=
  (c6_nonempty_fallback dNone).2.1 rfl


/-! ## C7 — priority order of the detected list -/

theorem filter_cons_append (p : String → Bool) (a : String) (l : List String) :
    (a :: l).filter p = (if p a then [a] else []) ++ l.filter p := by
  cases h : p a <;> simp [List.filter, h]

/-- C7 counterexample: with every encoder available, the code's list
puts `hevc_amf` (secondary vendor, AMD) before `hevc_qsv` (integrated
graphics vendor, Intel) inside the HEVC hardware group, so the
detected list differs from the claimed vendor order NVIDIA, Intel,
AMD. -/
theorem c7_counterexample :
    detect_available_encoders dAll =
      ["hevc_nvenc", "hevc_amf", "hevc_qsv",
       "h264_nvenc", "h264_qsv", "h264_amf", "libx265", "libx264"]
    ∧ detect_available_encoders dAll ≠ specPriorityOrder
    ∧ specPriorityOrder =
      ["hevc_nvenc", "hevc_qsv", "hevc_amf",
       "h264_nvenc", "h264_qsv", "h264_amf", "libx265", "libx264"] := by
  set_option maxRecDepth 4000 in refine ⟨by decide, by decide, rfl⟩

/-- C7 amended: the detected list is the availability filter of the
code's priority order `codePriorityOrder` — HEVC hardware in vendor
order NVIDIA, AMD, Intel, then H.264 hardware in vendor order NVIDIA,
Intel, AMD, then libx265 and libx264 — with the `libx264` fallback
when the filter is empty, and `get_best_encoder` returns the first
element of the detected list. -/
theorem c7_amended (d : EncoderDetector) :
    rawDetectedEncoders d = codePriorityOrder.filter (checkByName d)
    ∧ detect_available_encoders d =
        (if codePriorityOrder.filter (checkByName d) = [] then ["libx264"]
         else codePriorityOrder.filter (checkByName d))
    ∧ get_best_encoder d = (detect_available_encoders d).headD "libx264" := by
  have e1 : checkByName d "hevc_nvenc" = check_hevc_nvenc d := rfl
  have e2 : checkByName d "hevc_amf" = check_hevc_amf d := rfl
  have e3 : checkByName d "hevc_qsv" = check_hevc_qsv d := rfl
  have e4 : checkByName d "h264_nvenc" = check_nvenc d := rfl
  have e5 : checkByName d "h264_qsv" = check_qsv d := rfl
  have e6 : checkByName d "h264_amf" = check_amf d := rfl
  have e7 : checkByName d "libx265" = check_encoder d "libx265" := rfl
  have e8 : checkByName d "libx264" = check_encoder d "libx264" := rfl
  have hfil : codePriorityOrder.filter (checkByName d) = rawDetectedEncoders d := by
    show List.filter (checkByName d)
      ["hevc_nvenc", "hevc_amf", "hevc_qsv",
       "h264_nvenc", "h264_qsv", "h264_amf", "libx265", "libx264"] = _
    rw [filter_cons_append, filter_cons_append, filter_cons_append,
        filter_cons_append, filter_cons_append, filter_cons_append,
        filter_cons_append, filter_cons_append, List.filter_nil,
        List.append_nil]
    rw [e1, e2, e3, e4, e5, e6, e7, e8]
    unfold rawDetectedEncoders
    simp only [List.append_assoc]
  refine ⟨hfil.symm, ?_, rfl⟩
  rw [hfil]
  rfl

/-! ## C10 — hardware classifier vs detection list -/

/-- C10: `is_hardware_accelerated` returns true exactly for the three
H.264 hardware names, so every HEVC hardware encoder the probe can
detect — and place first in its priority list — is classified as not
hardware-accelerated; in particular with every encoder available the
probe's best encoder is `hevc_nvenc`, for which the classifier
returns false. -/
theorem c10_hw_classifier :
    (∀ name : String, is_hardware_accelerated name =
      (name == "h264_nvenc" || name == "h264_qsv" || name == "h264_amf"))
    ∧ is_hardware_accelerated "h264_nvenc" = true
    ∧ is_hardware_accelerated "h264_qsv" = true
    ∧ is_hardware_accelerated "h264_amf" = true
    ∧ is_hardware_accelerated "hevc_nvenc" = false
    ∧ is_hardware_accelerated "hevc_qsv" = false
    ∧ is_hardware_accelerated "hevc_amf" = false
    ∧ (detect_available_encoders dAll).head? = some "hevc_nvenc"
    ∧ "hevc_qsv" ∈ detect_available_encoders dAll
    ∧ "hevc_amf" ∈ detect_available_encoders dAll
    ∧ get_best_encoder dAll = "hevc_nvenc"
    ∧ is_hardware_accelerated (get_best_encoder dAll) = false := by
  set_option maxRecDepth 4000 in
  exact ⟨fun _ => rfl, by decide, by decide, by decide, by decide, by decide,
    by decide, by decide, by decide, by decide, by decide, by decide⟩

/-! ## C3 — the command builder -/

theorem string_data_append (p q : String) : (p ++ q).data = p.data ++ q.data := by
  cases p; cases q; rfl

theorem data_head_append (p q : String) (ch : Char)
    (h : p.data.head? = some ch) : (p ++ q).data.head? = some ch := by
  rw [string_data_append]
  cases hd : p.data with
  | nil => rw [hd] at h; cases h
  | cons a t =>
    rw [hd] at h
    simp only [List.cons_append, List.head?_cons] at h ⊢
    exact h

theorem ne_of_data_head (s t : String) (h : s.data.head? ≠ t.data.head?) :
    s ≠ t :=
  fun he => h (by rw [he])

theorem append3_ne (p a b q t : String) (hp : p.data.head? = some 's')
    (ht : t.data.head? ≠ some 's') : p ++ a ++ b ++ q ≠ t := by
  apply ne_of_data_head
  rw [data_head_append _ _ 's' (data_head_append _ _ 's' (data_head_append _ _ 's' hp))]
  exact fun hh => ht hh.symm

theorem count_encoderArgs (c : VideoConverter) (enc flag : String)
    (hflag : flag = "-crf" ∨ flag = "-b:v")
    (henc : enc ≠ flag) (hpr : c.preset ≠ flag) :
    (encoderArgs c enc).count flag = (qualityFlags c).count flag := by
  have hs : ∀ p a b q : String, p.data.head? = some 's' →
      p ++ a ++ b ++ q ≠ flag := by
    intro p a b q hp
    refine append3_ne p a b q flag hp ?_
    rcases hflag with h | h <;> rw [h] <;> decide
  have h1 := hs "scale_cuda=" (toString c.width) ":" (toString c.height) rfl
  have h2 := hs "scale_qsv=w=" (toString c.width) ":h=" (toString c.height) rfl
  have h3 := hs "scale=" (toString c.width) ":" (toString c.height) rfl
  rcases hflag with rfl | rfl <;>
    · unfold encoderArgs
      repeat' split
      all_goals simp [List.count_append, List.count_cons, henc, hpr, h1, h2, h3]

theorem getLast?_append_singleton {α : Type} (l : List α) (a : α) :
    (l ++ [a]).getLast? = some a := by
  rw [List.getLast?_append_cons l a []]
  rfl

/-- C3: the command builder is a pure function of (converter
parameters, resolved ffmpeg path, paths, resolved encoder) — two
builds with identical inputs are the same Lean term, hence identical —
and for every input whose free-form string parameters are not
themselves the literal flag tokens, the built vector holds the
constant-quality flag `-crf` exactly once and the constant-bitrate
flag `-b:v` not at all when `use_crf` is set, and vice versa when it
is not; the output path is the final element; and the constructor
default for the quality mode is bitrate (`use_crf = false`). -/
theorem c3_command_builder (f : String) (c : VideoConverter)
    (inp outp enc : String)
    (hf : f ≠ "-crf" ∧ f ≠ "-b:v")
    (hth : toString c.threads ≠ "-crf" ∧ toString c.threads ≠ "-b:v")
    (hin : inp ≠ "-crf" ∧ inp ≠ "-b:v")
    (hout : outp ≠ "-crf" ∧ outp ≠ "-b:v")
    (henc : enc ≠ "-crf" ∧ enc ≠ "-b:v")
    (hpr : c.preset ≠ "-crf" ∧ c.preset ≠ "-b:v")
    (hbr : c.bitrate ≠ "-crf" ∧ c.bitrate ≠ "-b:v")
    (hcrf : toString c.crf ≠ "-crf" ∧ toString c.crf ≠ "-b:v") :
    ((buildFfmpegCommand f c inp outp enc).count "-crf"
        = if c.use_crf then 1 else 0)
    ∧ ((buildFfmpegCommand f c inp outp enc).count "-b:v"
        = if c.use_crf then 0 else 1)
    ∧ (buildFfmpegCommand f c inp outp enc).getLast? = some outp
    ∧ defaultVideoConverter.use_crf = false := by
  have hq1 : (qualityFlags c).count "-crf" = if c.use_crf then 1 else 0 := by
    unfold qualityFlags
    split <;> simp [List.count_cons, hbr.1, hcrf.1]
  have hq2 : (qualityFlags c).count "-b:v" = if c.use_crf then 0 else 1 := by
    unfold qualityFlags
    split <;> simp [List.count_cons, hbr.2, hcrf.2]
  have hei1 := count_encoderArgs c enc "-crf" (Or.inl rfl) henc.1 hpr.1
  have hei2 := count_encoderArgs c enc "-b:v" (Or.inr rfl) henc.2 hpr.2
  have hhw : ∀ flag : String, flag = "-crf" ∨ flag = "-b:v" →
      (hwInitFlags enc).count flag = 0 := by
    intro flag hflag
    unfold hwInitFlags
    rcases hflag with rfl | rfl <;> repeat' split
    all_goals simp [List.count_cons]
  refine ⟨?_, ?_, ?_, rfl⟩
  · unfold buildFfmpegCommand
    simp [List.count_append, List.count_cons, hf.1, hth.1, hin.1, hout.1,
      hei1, hq1, hhw "-crf" (Or.inl rfl)]
  · unfold buildFfmpegCommand
    simp [List.count_append, List.count_cons, hf.2, hth.2, hin.2, hout.2,
      hei2, hq2, hhw "-b:v" (Or.inr rfl)]
  · unfold buildFfmpegCommand
    rw [show ∀ l1 l2 l3 l4 l5 : List String,
        l1 ++ l2 ++ l3 ++ l4 ++ l5 ++ [outp] = (l1 ++ l2 ++ l3 ++ l4 ++ l5) ++ [outp]
      from fun _ _ _ _ _ => rfl]
    exact getLast?_append_singleton _ outp

/-- C3 witness: the default converter (bitrate mode) with the software
encoder emits `-b:v` once, no `-crf`, and ends with the output path. -/
theorem c3_witness :
    (buildFfmpegCommand "ffmpeg" defaultVideoConverter "in.mp4" "out.mp4" "libx264").count "-b:v" = 1
    ∧ (buildFfmpegCommand "ffmpeg" defaultVideoConverter "in.mp4" "out.mp4" "libx264").count "-crf" = 0
    ∧ (buildFfmpegCommand "ffmpeg" defaultVideoConverter "in.mp4" "out.mp4" "libx264").getLast? = some "out.mp4" := by
  have h := c3_command_builder "ffmpeg" defaultVideoConverter "in.mp4" "out.mp4"
    "libx264" ⟨by decide, by decide⟩ ⟨by decide, by decide⟩
    ⟨by decide, by decide⟩ ⟨by decide, by decide⟩ ⟨by decide, by decide⟩
    ⟨by decide, by decide⟩ ⟨by decide, by decide⟩ ⟨by decide, by decide⟩
  exact ⟨by simpa using h.2.1, by simpa using h.1, h.2.2.1⟩

/-! ## Session lemmas -/

theorem readLoop_none_not_cancelled (parse : String → Option ProgressEvent)
    (excAt : Option Nat) : ∀ (i : Nat) (lines : List String) (evs : List ProgressEvent),
    readLoop parse none excAt i lines ≠ LoopExit.cancelledExit evs := by
  intro i lines
  induction lines generalizing i with
  | nil => intro evs; simp [readLoop, stopObserved]
  | cons l rest ih =>
    intro evs
    rcases h : readLoop parse none excAt (i + 1) rest with e1 | e1 | e1
    · exact absurd h (ih (i + 1) e1)
    · simp only [readLoop, stopObserved]
      rw [h]
      repeat' split
      all_goals simp_all
    · simp only [readLoop, stopObserved]
      rw [h]
      repeat' split
      all_goals simp_all

theorem readLoop_none_none_finished (parse : String → Option ProgressEvent) :
    ∀ (i : Nat) (lines : List String), ∃ evs,
    readLoop parse none none i lines = LoopExit.finished evs := by
  intro i lines
  induction lines generalizing i with
  | nil => exact ⟨[], rfl⟩
  | cons l rest ih =>
    obtain ⟨evs, hevs⟩ := ih (i + 1)
    refine ⟨(match parse l with | some e => [e] | none => []) ++ evs, ?_⟩
    simp only [readLoop, stopObserved]
    rw [hevs]
    simp

/-! ## Concrete session environments -/

/-- A session whose probe matches the default 1280x720 target and whose
byte copy succeeds. -/
def envCopyOk : SessionEnv :=
  { stopAtStart := false, inputExists := true,
    info := { duration := 30, width := 1280, height := 720 },
    copyOk := true, copyLeavesPartial := false,
    proc := { spawnOk := true, lines := [], exitCode := 0, exitTime := 0,
              wroteOutput := false },
    stopDuringRead := none, excDuringLoop := none, excMsg := "",
    ffmpegPath := "ffmpeg", detect := dNone }

/-- Like `envCopyOk`, but `shutil.copy2` raises after writing part of
the output file. -/
def envCopyFail : SessionEnv :=
  { envCopyOk with
      copyOk := false
      copyLeavesPartial := true
      excMsg := "disk full during copy" }

/-- A transcode session whose process emits one line, exits with code 1
and leaves a partial output file at the moment of the exit check. -/
def envExitOne : SessionEnv :=
  { stopAtStart := false, inputExists := true,
    info := { duration := 30, width := 1920, height := 1080 },
    copyOk := true, copyLeavesPartial := false,
    proc := { spawnOk := true, lines := ["Unknown encoder"], exitCode := 1,
              exitTime := 2, wroteOutput := true },
    stopDuringRead := none, excDuringLoop := none, excMsg := "",
    ffmpegPath := "ffmpeg", detect := dNone }

/-- A transcode session whose process runs for 600 seconds — twice the
default 300-second timeout — emitting progress lines, then exits 0. -/
def envLongRun : SessionEnv :=
  { stopAtStart := false, inputExists := true,
    info := { duration := 1000, width := 1920, height := 1080 },
    copyOk := true, copyLeavesPartial := false,
    proc := { spawnOk := true,
              lines := ["frame=  100 fps= 25", "frame=  200 fps= 25"],
              exitCode := 0, exitTime := 600, wroteOutput := true },
    stopDuringRead := none, excDuringLoop := none, excMsg := "",
    ffmpegPath := "ffmpeg", detect := dNone }

/-! ## C1 — output file presence vs terminal outcome -/

/-- Which pairs of (outcome, output-file presence) each control-flow
path of `convert` can produce. -/
def OutcomeFileSync (env : SessionEnv) (r : SessionResult) : Prop :=
  (r.outcome = Outcome.cancelled ∧ r.outputExists = false)
  ∨ (r.outcome = Outcome.inputMissing ∧ r.outputExists = false)
  ∨ (r.outcome = Outcome.skippedIdentical ∧ r.outputExists = true)
  ∨ (r.outcome = Outcome.copyFailed ∧ r.outputExists = env.copyLeavesPartial)
  ∨ (r.outcome = Outcome.raisedError ∧ r.outputExists = false)
  ∨ (r.outcome = Outcome.succeeded ∧ r.outputExists = env.proc.wroteOutput)
  ∨ (r.outcome = Outcome.failed ∧ r.outputExists = false)

theorem convertModel_file_sync (c : VideoConverter)
    (parse : String → Option ProgressEvent) (env : SessionEnv)
    (inp outp : String) :
    OutcomeFileSync env (convertModel c parse env inp outp) := by
  unfold convertModel OutcomeFileSync
  repeat' split
  all_goals simp

/-- C1 (amended): for every session whose outcome is not the copy
path's failure, an output file remains on disk only when the outcome
is Succeeded or SkippedIdentical — every transcode-path failure,
cancellation, timeout or exception deletes any partial output before
reporting — and a SkippedIdentical outcome always leaves the copied
output file in place. The exception forced by the counterexample: the
short-circuit copy path's failure handler reports failure without
deleting a partially-written output file. -/
theorem c1_amended (c : VideoConverter)
    (parse : String → Option ProgressEvent) (env : SessionEnv)
    (inp outp : String)
    (hnc : (convertModel c parse env inp outp).outcome ≠ Outcome.copyFailed) :
    ((convertModel c parse env inp outp).outputExists = true →
      (convertModel c parse env inp outp).outcome = Outcome.succeeded ∨
      (convertModel c parse env inp outp).outcome = Outcome.skippedIdentical)
    ∧ ((convertModel c parse env inp outp).outcome = Outcome.skippedIdentical →
      (convertModel c parse env inp outp).outputExists = true) := by
  have hc := convertModel_file_sync c parse env inp outp
  unfold OutcomeFileSync at hc
  rcases hc with ⟨h1, h2⟩ | ⟨h1, h2⟩ | ⟨h1, h2⟩ | ⟨h1, h2⟩ | ⟨h1, h2⟩ | ⟨h1, h2⟩ | ⟨h1, h2⟩
  · simp [h1, h2]
  · simp [h1, h2]
  · simp [h1, h2]
  · exact absurd h1 hnc
  · simp [h1, h2]
  · simp [h1, h2]
  · simp [h1, h2]

/-- C1 counterexample: a session whose resolution matches the target
takes the copy path; when the copy fails leaving a partial file, the
session ends in a failed outcome while an output file still exists,
violating the claimed retained-iff-successful invariant. -/
theorem c1_counterexample :
    (convertModel defaultVideoConverter parseNone envCopyFail "in.mp4" "out.mp4").outcome
      = Outcome.copyFailed
    ∧ (convertModel defaultVideoConverter parseNone envCopyFail "in.mp4" "out.mp4").outputExists
      = true := by
  exact ⟨by decide, by decide⟩

/-- C1 witness: a concrete skipped-identical session retains its
output file. -/
theorem c1_witness :
    (convertModel defaultVideoConverter parseNone envCopyOk "in.mp4" "out.mp4").outputExists
      = true :=
  (c1_amended defaultVideoConverter parseNone envCopyOk "in.mp4" "out.mp4"
    (by decide)).2 (by decide)

/-! ## C4 — short-circuit copy path -/

/-- C4: when the session is not already stopped and the input exists,
the copy path is taken exactly when target width and height are both
positive and equal the probed source dimensions; on it the transcoder
is never invoked and, provided the byte copy succeeds, the session
emits the single synthetic progress event with percent 100.0, reports
a completed copy, and ends in the SkippedIdentical outcome (a
constructor distinct from Succeeded); for every other width/height
combination the copy path is not taken and the session proceeds to the
transcoder. -/
theorem c4_short_circuit (c : VideoConverter)
    (parse : String → Option ProgressEvent) (env : SessionEnv)
    (inp outp : String)
    (hstop : env.stopAtStart = false) (hin : env.inputExists = true) :
    (copyCondition c env.info = true →
        (convertModel c parse env inp outp).transcoderInvoked = false
      ∧ (env.copyOk = true →
          (convertModel c parse env inp outp).outcome = Outcome.skippedIdentical
        ∧ (convertModel c parse env inp outp).didCopy = true
        ∧ (convertModel c parse env inp outp).events
            = [syntheticCopyEvent env.info]
        ∧ (syntheticCopyEvent env.info).percent = some 100))
    ∧ (copyCondition c env.info = false →
        (convertModel c parse env inp outp).transcoderInvoked = true
      ∧ (convertModel c parse env inp outp).didCopy = false
      ∧ ((convertModel c parse env inp outp).outcome
          == Outcome.skippedIdentical) = false) := by
  constructor
  · intro hcc
    constructor
    · simp [convertModel, hstop, hin, hcc]
      split <;> simp
    · intro hok
      refine ⟨?_, ?_, ?_, rfl⟩ <;> simp [convertModel, hstop, hin, hcc, hok]
  · intro hcc
    refine ⟨?_, ?_, ?_⟩ <;>
      · simp only [convertModel, hstop, hin, hcc]
        repeat' split
        all_goals simp_all

/-- C4 witness: a concrete matching-resolution session ends
SkippedIdentical without invoking the transcoder. -/
theorem c4_witness :
    (convertModel defaultVideoConverter parseNone envCopyOk "in.mp4" "out.mp4").outcome
      = Outcome.skippedIdentical
    ∧ (convertModel defaultVideoConverter parseNone envCopyOk "in.mp4" "out.mp4").transcoderInvoked
      = false := by
  have h := c4_short_circuit defaultVideoConverter parseNone envCopyOk
    "in.mp4" "out.mp4" rfl rfl
  exact ⟨((h.1 (by decide)).2 (by decide)).1, (h.1 (by decide)).1⟩

/-! ## C2 — the timeout bound -/

/-- C2: the configured timeout is not a hard ceiling. The session's
entire observable behaviour is invariant under changing the timeout;
no run ever reports the TimedOut outcome; without a stop request the
process is never killed; and every non-stopped, non-failing run waits
until the process exits on its own — concretely, a process running for
600 seconds under the default 300-second timeout completes
successfully at 600 seconds with no kill. The `TimeoutExpired` handler
of converter.py lines 399-405 is dead code because
`communicate(timeout=...)` is reached only after the stderr loop has
already observed process exit. -/
theorem c2_timeout_not_enforced :
    (∀ (c : VideoConverter) (t : Int) (parse : String → Option ProgressEvent)
        (env : SessionEnv) (inp outp : String),
      convertModel { c with timeout := t } parse env inp outp
        = convertModel c parse env inp outp)
    ∧ (∀ (c : VideoConverter) (parse : String → Option ProgressEvent)
        (env : SessionEnv) (inp outp : String),
      ((convertModel c parse env inp outp).outcome == Outcome.timedOut) = false)
    ∧ (∀ (c : VideoConverter) (parse : String → Option ProgressEvent)
        (env : SessionEnv) (inp outp : String),
      env.stopAtStart = false → env.stopDuringRead = none →
      (convertModel c parse env inp outp).killedProcess = false)
    ∧ (∀ (c : VideoConverter) (parse : String → Option ProgressEvent)
        (env : SessionEnv) (inp outp : String),
      env.stopAtStart = false → env.stopDuringRead = none →
      env.excDuringLoop = none → env.inputExists = true →
      copyCondition c env.info = false → env.proc.spawnOk = true →
      ((convertModel c parse env inp outp).outcome = Outcome.succeeded
        ∨ (convertModel c parse env inp outp).outcome = Outcome.failed)
      ∧ (convertModel c parse env inp outp).finishTime = env.proc.exitTime)
    ∧ (convertModel defaultVideoConverter parseNone envLongRun "src.mp4" "dst.mp4").outcome
        = Outcome.succeeded
    ∧ (convertModel defaultVideoConverter parseNone envLongRun "src.mp4" "dst.mp4").finishTime
        = 600
    ∧ (convertModel defaultVideoConverter parseNone envLongRun "src.mp4" "dst.mp4").killedProcess
        = false
    ∧ defaultVideoConverter.timeout = 300 := by
  refine ⟨?_, ?_, ?_, ?_, by decide, by decide, by decide, rfl⟩
  · intro c t parse env inp outp
    rfl
  · intro c parse env inp outp
    unfold convertModel
    repeat' split
    all_goals simp
  · intro c parse env inp outp h1 h2
    simp only [convertModel, h1, h2]
    rcases hr : readLoop parse none env.excDuringLoop 0 env.proc.lines
        with evs | evs | evs
    · exact absurd hr (readLoop_none_not_cancelled parse env.excDuringLoop 0
        env.proc.lines evs)
    · simp only [hr]
      repeat' split
      all_goals simp_all
    · simp only [hr]
      repeat' split
      all_goals simp_all
  · intro c parse env inp outp h1 h2 h3 h4 h5 h6
    obtain ⟨evs, hevs⟩ := readLoop_none_none_finished parse 0 env.proc.lines
    simp only [convertModel, h1, h2, h3, h4, h5, h6]
    rw [hevs]
    repeat' split
    all_goals simp_all

/-! ## C8 — no up-front environment check in the batch -/

/-- A session environment in which the transcoder binary is missing:
`Popen` raises `FileNotFoundError` and the probe detects nothing. -/
def envNoFfmpeg : SessionEnv :=
  { stopAtStart := false, inputExists := true,
    info := { duration := 0, width := 1920, height := 1080 },
    copyOk := true, copyLeavesPartial := false,
    proc := { spawnOk := false, lines := [], exitCode := 1, exitTime := 0,
              wroteOutput := false },
    stopDuringRead := none, excDuringLoop := none,
    excMsg := "FileNotFoundError: ffmpeg",
    ffmpegPath := "ffmpeg", detect := dNone }

theorem batchLoop_spawn_fail (c : VideoConverter)
    (parse : String → Option ProgressEvent) (folder : String) :
    ∀ (jobs : List FileJob) (idx : Nat) (m : SequenceManager),
    (∀ j ∈ jobs, j.env.stopAtStart = false ∧ j.env.inputExists = true
      ∧ copyCondition c j.env.info = false ∧ j.env.proc.spawnOk = false) →
    (batchLoop c parse folder none idx m jobs).1.attempted = jobs.length
    ∧ (batchLoop c parse folder none idx m jobs).1.success = 0
    ∧ (batchLoop c parse folder none idx m jobs).1.failed = jobs.length
    ∧ (batchLoop c parse folder none idx m jobs).1.failed_files
        = jobs.map (fun j => FailEntry.withReason j.name j.env.excMsg) := by
  intro jobs
  induction jobs with
  | nil => intro idx m _; simp [batchLoop]
  | cons j rest ih =>
    intro idx m h
    have hj := h j (List.mem_cons_self j rest)
    obtain ⟨ih1, ih2, ih3, ih4⟩ :=
      ih (idx + 1) (get_next m).2 (fun x hx => h x (List.mem_cons_of_mem j hx))
    have htc : toConvertOutput j.name j.env
        (convertModel c parse j.env j.name
          (folder ++ "/" ++ batchOutputName c (get_next m).1))
        = ConvertOutput.exn j.env.excMsg := by
      simp [convertModel, toConvertOutput, hj.1, hj.2.1, hj.2.2.1, hj.2.2.2]
    simp only [batchLoop, stopObserved]
    rw [htc]
    simp [ih1, ih2, ih3, ih4]

/-- C8 (amended): the batch performs no up-front environment check at
all. When the transcoder binary is missing (every spawn fails), the
loop still starts a conversion session for every input file; each
session fails individually and is recorded in the failure list with
its exception text, rather than the whole batch being refused once
before any file is attempted. (A "no acceptable encoder" report cannot
occur: the probe's guaranteed `libx264` fallback means
`get_best_encoder` always returns a name.) -/
theorem c8_amended (c : VideoConverter)
    (parse : String → Option ProgressEvent) (folder : String)
    (jobs : List FileJob) (m : SequenceManager)
    (hall : ∀ j ∈ jobs, j.env.stopAtStart = false ∧ j.env.inputExists = true
      ∧ copyCondition c j.env.info = false ∧ j.env.proc.spawnOk = false) :
    (convert_batch c parse folder jobs none m).1.attempted = jobs.length
    ∧ (convert_batch c parse folder jobs none m).1.success = 0
    ∧ (convert_batch c parse folder jobs none m).1.failed = jobs.length
    ∧ (convert_batch c parse folder jobs none m).1.failed_files
        = jobs.map (fun j => FailEntry.withReason j.name j.env.excMsg) := by
  obtain ⟨h1, h2, h3, h4⟩ := batchLoop_spawn_fail c parse folder jobs 0 m hall
  exact ⟨h1, h2, h3, h4⟩

def jobsNoFfmpeg : List FileJob :=
  [⟨"a.mp4", envNoFfmpeg⟩, ⟨"b.mp4", envNoFfmpeg⟩]

/-- C8 counterexample: with the transcoder binary missing, a batch of
two files starts a session for both files (attempted = 2, not 0) and
fails them one by one. -/
theorem c8_counterexample :
    (convert_batch defaultVideoConverter parseNone "out" jobsNoFfmpeg none ⟨1⟩).1.attempted = 2
    ∧ (convert_batch defaultVideoConverter parseNone "out" jobsNoFfmpeg none ⟨1⟩).1.success = 0
    ∧ (convert_batch defaultVideoConverter parseNone "out" jobsNoFfmpeg none ⟨1⟩).1.failed = 2
    ∧ (convert_batch defaultVideoConverter parseNone "out" jobsNoFfmpeg none ⟨1⟩).1.failed_files
        = [FailEntry.withReason "a.mp4" "FileNotFoundError: ffmpeg",
           FailEntry.withReason "b.mp4" "FileNotFoundError: ffmpeg"] := by
  exact ⟨by decide, by decide, by decide, by decide⟩

/-- C8 witness: a concrete one-file batch with the binary missing
still attempts that file. -/
theorem c8_witness :
    (convert_batch defaultVideoConverter parseNone "out"
      [⟨"c.mp4", envNoFfmpeg⟩] none ⟨1⟩).1.attempted = 1 := by
  have h := c8_amended defaultVideoConverter parseNone "out"
    [⟨"c.mp4", envNoFfmpeg⟩] ⟨1⟩ (by decide)
  exact h.1

/-! ## C9 — per-file error containment and failure recording -/

theorem batchLoop_idx_none (c : VideoConverter)
    (parse : String → Option ProgressEvent) (folder : String) :
    ∀ (jobs : List FileJob) (idx1 idx2 : Nat) (m : SequenceManager),
    batchLoop c parse folder none idx1 m jobs
      = batchLoop c parse folder none idx2 m jobs := by
  intro jobs
  induction jobs with
  | nil => intro _ _ _; rfl
  | cons j rest ih =>
    intro i1 i2 m
    simp only [batchLoop, stopObserved]
    rw [ih (i1 + 1) (i2 + 1) (get_next m).2]

/-- C9 (amended): a per-file exception never propagates out of the
batch loop: the file is counted as failed, recorded at its position in
the failure list as a (file, reason) pair, and the loop continues with
the remaining files exactly as it would have without that file. The
exception forced by the counterexample: a failure signalled by the
session's `False` return (non-zero exit, cancellation, copy failure)
is recorded as the bare file without a reason, so not every
failure-list entry carries a (file, reason) pair. -/
theorem c9_amended (c : VideoConverter)
    (parse : String → Option ProgressEvent) (folder : String)
    (j : FileJob) (rest : List FileJob) (m : SequenceManager) (msg : String)
    (hexn : toConvertOutput j.name j.env
        (convertModel c parse j.env j.name
          (folder ++ "/" ++ batchOutputName c (get_next m).1))
        = ConvertOutput.exn msg) :
    (convert_batch c parse folder (j :: rest) none m).1.failed
      = (convert_batch c parse folder rest none (get_next m).2).1.failed + 1
    ∧ (convert_batch c parse folder (j :: rest) none m).1.success
      = (convert_batch c parse folder rest none (get_next m).2).1.success
    ∧ (convert_batch c parse folder (j :: rest) none m).1.attempted
      = (convert_batch c parse folder rest none (get_next m).2).1.attempted + 1
    ∧ (convert_batch c parse folder (j :: rest) none m).1.failed_files
      = FailEntry.withReason j.name msg
          :: (convert_batch c parse folder rest none (get_next m).2).1.failed_files := by
  unfold convert_batch
  simp only [batchLoop, stopObserved]
  rw [hexn, batchLoop_idx_none c parse folder rest 1 0 (get_next m).2]
  simp

/-- C9 counterexample: a batch whose single file fails through a
non-zero transcoder exit records the bare file in `failed_files`, with
no failure reason attached — refuting that every failed file's entry
carries both the file and its reason. -/
theorem c9_counterexample :
    (convert_batch defaultVideoConverter parseNone "out"
      [⟨"a.mp4", envExitOne⟩] none ⟨1⟩).1.failed_files = [FailEntry.bare "a.mp4"]
    ∧ (convert_batch defaultVideoConverter parseNone "out"
      [⟨"a.mp4", envExitOne⟩] none ⟨1⟩).1.failed = 1
    ∧ (convert_batch defaultVideoConverter parseNone "out"
      [⟨"a.mp4", envExitOne⟩] none ⟨1⟩).1.success = 0 := by
  exact ⟨by decide, by decide, by decide⟩

/-- C9 witness: a two-file batch whose first file raises gets a
(file, reason) entry for it and continues to the second file. -/
theorem c9_witness :
    (convert_batch defaultVideoConverter parseNone "out"
      [⟨"b.mp4", envNoFfmpeg⟩, ⟨"a.mp4", envExitOne⟩] none ⟨1⟩).1.failed_files
      = [FailEntry.withReason "b.mp4" "FileNotFoundError: ffmpeg",
         FailEntry.bare "a.mp4"] := by
  have h := c9_amended defaultVideoConverter parseNone "out"
    ⟨"b.mp4", envNoFfmpeg⟩ [⟨"a.mp4", envExitOne⟩] ⟨1⟩
    "FileNotFoundError: ffmpeg" (by decide)
  rw [h.2.2.2]
  refine congrArg₂ _ rfl ?_
  decide
